import Mathlib

/-!
Verification development for the renpho-ble-scale repository.

Shallow embedding of:
- src/src/protocol.ts        : packet decoding (parseIncomingPacket)
- src/unnamed/part_000       : the RenphoScale class (event registry,
  packet dispatch, idle watchdog, destroy) and the runMessageLoop
  reconnection supervisor.

Modelling conventions:
- A Buffer is a List Nat whose elements are byte values 0..255.
  JavaScript indexing out of bounds yields undefined; we model a byte
  read as Option Nat, with none for undefined.
- JavaScript numbers are modelled as rationals; NaN and undefined
  number values are both modelled as none in Option Rat.
- Asynchronous callback code is modelled as pure state-transition
  functions that also return the list of observable effects (event
  emissions, characteristic writes, unsubscriptions) in the order the
  source performs them.
-/

/-! Packet codec (src/src/protocol.ts). -/

/--
Mirror of the parsed packet object. The parser in protocol.ts builds one
record and, for id 0x10, additionally assigns scaleType and weight.
The field weightValue exists on no variant and is never assigned by the
parser; reading it in JavaScript yields undefined, so in the model it is
always none. It is included because part_000 reads p.weightValue.
-/
structure Packet where
  packetId : Option Nat
  len : Option Nat
  checksum : Option Nat
  data : List Nat
  scaleType : Option Nat
  weight : Option ℚ
  weightValue : Option ℚ
deriving DecidableEq

/--
Weight computation of protocol.ts line 65: ((buf[3] << 8) + buf[4]) / 100.
For byte values (below 256) the shift-add equals buf[3] * 256 + buf[4]
with no 32-bit wrap. If buf[4] is undefined the JavaScript sum is NaN
(modelled none); an undefined buf[3] coerces to 0 under << .
-/
def jsWeightOf (buf : List Nat) : Option ℚ :=
  match buf.get? 4 with
  | none => none
  | some b4 => some ((((buf.get? 3).getD 0 * 256 + b4 : ℕ) : ℚ) / 100)

/--
Embedding of parseIncomingPacket (protocol.ts lines 53-69). The switch
returns the base record unchanged for ids 0x12 and 0x14 and for the
default branch, and assigns scaleType and weight for id 0x10; the
branches are collapsed to a single test on id 0x10.
-/
def parseIncomingPacket (buf : List Nat) : Packet :=
  let base : Packet :=
    { packetId := buf.get? 0
      len := buf.get? 1
      checksum := buf.get? (buf.length - 1)
      data := buf
      scaleType := none
      weight := none
      weightValue := none }
  if buf.get? 0 = some 0x10 then
    { base with scaleType := buf.get? 2, weight := jsWeightOf buf }
  else base

/-- Variant names of the packet union, following the four switch branches. -/
inductive PacketVariant
  | handshakeInitV
  | handshakeAckV
  | weightSampleV
  | unrecognizedV
deriving DecidableEq

/-- Which switch branch of parseIncomingPacket a buffer takes. -/
def variantOf (buf : List Nat) : PacketVariant :=
  if buf.get? 0 = some 0x12 then PacketVariant.handshakeInitV
  else if buf.get? 0 = some 0x14 then PacketVariant.handshakeAckV
  else if buf.get? 0 = some 0x10 then PacketVariant.weightSampleV
  else PacketVariant.unrecognizedV

/--
The settled classification of a weight packet. The code keeps no such
field; handlePacket (part_000 lines 201-213) reads flag = p.data[5] and
treats flag === 1 as a completed measurement.
-/
def settledOf (p : Packet) : Bool :=
  decide (p.data.get? 5 = some 1)

/-- Fixed reply to a handshake packet 1/2 (part_000 lines 188-190). -/
def handshakeResp1 : List Nat := [0x13, 0x09, 0x15, 0x01, 0x10, 0x00, 0x00, 0x00, 0x42]

/-- Fixed reply to a handshake packet 2/2 (part_000 lines 196-198). -/
def handshakeResp2 : List Nat := [0x20, 0x08, 0x15, 0x09, 0x0b, 0xac, 0x29, 0x26]

/-- Fixed stop-streaming command (part_000 line 210). -/
def stopStreamingFrame : List Nat := [0x1f, 0x05, 0x15, 0x10, 0x49]

/-- Example settled weight frame: id 0x10, weight bytes 0x04 0x4c, flag 1. -/
def settledFrame : List Nat := [0x10, 0x0b, 0x15, 0x04, 0x4c, 0x01, 0x42]

/-- Example live weight frame: id 0x10, weight bytes 0x04 0x4c, flag 0. -/
def liveFrame : List Nat := [0x10, 0x0b, 0x15, 0x04, 0x4c, 0x00, 0x42]

/-- Indicator for a Bool transition from false to true, used to count watchdog firings. -/
def tcount (a b : Bool) : Nat := if a = false ∧ b = true then 1 else 0

/-! Event registry (part_000 lines 119-158). -/

/--
One entry of a listener array. Handlers are identified by closure
identity, modelled as a numeric id. wrappedOnce marks the wrapper built
by once(), which deregisters itself (off) before calling the user
handler; a plain handler leaves the array unchanged.
-/
structure Handler where
  id : Nat
  wrappedOnce : Bool
deriving DecidableEq

/-- Splice of the first handler with the given identity (off, lines 149-157). -/
def removeFirst (i : Nat) : List Handler → List Handler
  | [] => []
  | h :: t => if h.id = i then t else h :: removeFirst i t

/--
Cursor loop of Array.prototype.forEach as used by emit (line 120): visit
index k of the live array while it is in range; a wrappedOnce handler
splices itself out first, shifting later entries down one slot while the
cursor still advances. Returns the handler ids invoked, in order; every
invocation receives the same argument list, which the model therefore
omits. The fuel argument is the initial array length, an upper bound on
the number of cursor steps, since each step advances the cursor by one
and the array never grows.
-/
def emitSteps : Nat → List Handler → Nat → List Nat
  | 0, _, _ => []
  | fuel + 1, ls, k =>
    if h : k < ls.length then
      (ls.get ⟨k, h⟩).id ::
        emitSteps fuel
          (if (ls.get ⟨k, h⟩).wrappedOnce then removeFirst (ls.get ⟨k, h⟩).id ls else ls)
          (k + 1)
    else []

/-- Ids of the handlers invoked by one emit call on the given listener array. -/
def emitModel (ls : List Handler) : List Nat :=
  emitSteps ls.length ls 0

/-! Session machine (part_000 lines 175-268). -/

/-- Observable effects of packet handling and the idle watchdog. -/
inductive SessionOut
  | emitData (p : Packet)
  | emitLiveupdate (w : Option ℚ)
  | emitMeasurement (w : Option ℚ)
  | emitTimeoutEv
  | writeFrame (bs : List Nat)
  | offValuechanged
  | stopNotificationsCall
deriving DecidableEq

/--
Mutable state of one listening session: the didTimeout flag and the
timer handle of startListening, and whether this.eventChar is still set
(the transport subscription). nextTimerId generates fresh setTimeout
handles so that a rearmed timer is distinguishable from the cancelled
one.
-/
structure SessionState where
  didTimeout : Bool
  timeoutHandle : Option Nat
  subscribed : Bool
  nextTimerId : Nat
deriving DecidableEq

/-- External stimuli: a transport notification, or expiry of an armed timer. -/
inductive SessionIn
  | notify (buf : List Nat)
  | timerFire (id : Nat)
deriving DecidableEq

/--
Dispatch of handlePacket (lines 184-217) after the data emission: the
two handshake ids answer with their fixed frames; id 0x10 reads flag =
p.data[5] and emits liveupdate on flag === 0, or writes the stop frame
and emits measurement on flag === 1; any other flag, and any other id,
produces nothing. The emitted payload is p.weightValue, exactly as the
source writes it.
-/
def dispatchOuts (p : Packet) : List SessionOut :=
  if p.packetId = some 0x12 then [SessionOut.writeFrame handshakeResp1]
  else if p.packetId = some 0x14 then [SessionOut.writeFrame handshakeResp2]
  else if p.packetId = some 0x10 then
    if p.data.get? 5 = some 0 then [SessionOut.emitLiveupdate p.weightValue]
    else if p.data.get? 5 = some 1 then
      [SessionOut.writeFrame stopStreamingFrame, SessionOut.emitMeasurement p.weightValue]
    else []
  else []

/--
One step of the session. A notification runs handleValueChange (lines
237-242): dropped entirely if didTimeout is set, otherwise the buffer is
parsed and handlePacket runs, whose data emission triggers the resetTimer
listener registered at lines 265-267 (cancel the armed timer, arm a fresh
one). Expiry of the armed timer runs handleTimeout (lines 244-250): set
didTimeout, emit timeout, remove the valuechanged listener, then destroy,
which clears the timer handle and calls stopNotifications since
this.eventChar is still set. A fire of a cancelled or stale handle does
nothing, which is the clearTimeout guarantee.
-/
def sessionStep (s : SessionState) (ev : SessionIn) : SessionState × List SessionOut :=
  match ev with
  | SessionIn.notify buf =>
    if s.didTimeout then (s, [])
    else
      let p := parseIncomingPacket buf
      ({ s with timeoutHandle := some s.nextTimerId, nextTimerId := s.nextTimerId + 1 },
        SessionOut.emitData p :: dispatchOuts p)
  | SessionIn.timerFire i =>
    if s.timeoutHandle = some i then
      ({ s with didTimeout := true, timeoutHandle := none, subscribed := false },
        [SessionOut.emitTimeoutEv, SessionOut.offValuechanged] ++
          (if s.subscribed then [SessionOut.stopNotificationsCall] else []))
    else (s, [])

/-- State right after startListening: subscribed, timer 0 armed, not timed out. -/
def initSession : SessionState :=
  { didTimeout := false, timeoutHandle := some 0, subscribed := true, nextTimerId := 1 }

/-- Fold of sessionStep over a stimulus list, concatenating the effects. -/
def runSession : SessionState → List SessionIn → SessionState × List SessionOut
  | s, [] => (s, [])
  | s, ev :: rest =>
    let st := sessionStep s ev
    let rst := runSession st.1 rest
    (rst.1, st.2 ++ rst.2)

/-- Test for a timeout emission among session effects. -/
def isTimeoutEmit : SessionOut → Bool
  | SessionOut.emitTimeoutEv => true
  | _ => false

/-- Test for a stopNotifications call among session effects. -/
def isStopNotif : SessionOut → Bool
  | SessionOut.stopNotificationsCall => true
  | _ => false

/-- Test for removal of the valuechanged listener among session effects. -/
def isOffCall : SessionOut → Bool
  | SessionOut.offValuechanged => true
  | _ => false

/-- Outgoing characteristic writes among session effects, in order. -/
def writesOf (outs : List SessionOut) : List (List Nat) :=
  outs.filterMap fun o =>
    match o with
    | SessionOut.writeFrame bs => some bs
    | _ => none

/--
Invariant of reachable session states: the transport subscription is
held exactly while the session has not timed out, and after a timeout no
timer handle remains armed.
-/
def SInv (s : SessionState) : Prop :=
  s.subscribed = !s.didTimeout ∧ (s.didTimeout = true → s.timeoutHandle = none)

/--
Phase names of the spec state machine of section 4.3. The class in
part_000 keeps no handshake-progress state; this type exists only for
the refinement statement relating the code trace to the spec phases.
-/
inductive SpecPhase
  | awaitingHandshake
  | streaming
  | closedPhase
deriving DecidableEq

/--
Spec phase transition, following the spec wording of section 4.3: a
HandshakeAck moves to Streaming, a closed session stays closed, every
other notification leaves the phase unchanged.
-/
def specPhaseStep (ph : SpecPhase) (buf : List Nat) : SpecPhase :=
  if ph = SpecPhase.closedPhase then ph
  else if (parseIncomingPacket buf).packetId = some 0x14 then SpecPhase.streaming
  else ph

/-- Spec phase after a list of notifications. -/
def specSessionPhase : SpecPhase → List (List Nat) → SpecPhase
  | ph, [] => ph
  | ph, b :: rest => specSessionPhase (specPhaseStep ph b) rest

/-! Destroy (part_000 lines 273-295). -/

/-- Resources touched by destroy: timer handle, eventChar, listener registry. -/
structure ScaleRes where
  timeoutHandle : Option Nat
  eventChar : Bool
  listeners : List Nat
deriving DecidableEq

/-- Cleanup actions observable during destroy. -/
inductive CleanupOut
  | clearTimeoutCall (id : Nat)
  | stopNotificationsTry
deriving DecidableEq

/--
Embedding of stopListening (lines 290-295): nothing if eventChar is
unset; otherwise stopNotifications is attempted and, only on success,
eventChar is cleared (the assignment follows the await, so a throwing
stopNotifications leaves eventChar set). The Bool result reports whether
the call raised.
-/
def stopListeningModel (fails : Bool) (s : ScaleRes) : ScaleRes × List CleanupOut × Bool :=
  if s.eventChar then
    if fails then (s, [CleanupOut.stopNotificationsTry], true)
    else ({ s with eventChar := false }, [CleanupOut.stopNotificationsTry], false)
  else (s, [], false)

/--
Embedding of destroy (lines 273-285): clear a live timer handle, then
stopListening; the surrounding try/catch swallows any raise, so destroy
itself never raises (final Bool always false). The listener registry is
not touched anywhere in destroy.
-/
def destroyModel (fails : Bool) (s : ScaleRes) : ScaleRes × List CleanupOut × Bool :=
  let t : ScaleRes × List CleanupOut :=
    match s.timeoutHandle with
    | some i => ({ s with timeoutHandle := none }, [CleanupOut.clearTimeoutCall i])
    | none => (s, [])
  let r := stopListeningModel fails t.1
  (r.1, t.2 ++ r.2.1, false)

/-! Reconnection supervisor (part_000 lines 306-367). -/

/-- Observable events of one runMessageLoop execution, numbered by iteration. -/
inductive SupEv
  | connectAttempt (i : Nat)
  | connectFailed (i : Nat)
  | sessionEnded (i : Nat)
  | storedDestructor (i : Nat)
  | loopDelay
  | loopBreak
  | destroyedSession (i : Nat)
  | destroyedBluetooth
deriving DecidableEq

/--
The while loop of runMessageLoop (lines 350-359). Each schedule entry
says whether that iteration of connectAndHandle runs to completion
(connect succeeds and the session-ended signal eventually fires) or
throws. On completion the destructor closure is stored and, only when
once is set, the loop breaks; otherwise, and always after a caught
failure, the loop logs, delays and retries. Arguments: stored destructor
so far, iteration counter. Result: events, final stored destructor,
whether the loop exited. An exhausted schedule means the observation was
cut while the loop was still running (third component false).
-/
def supLoop (once : Bool) : List Bool → Option Nat → Nat → List SupEv × Option Nat × Bool
  | [], d, _ => ([], d, false)
  | ok :: rest, d, i =>
    if ok then
      if once then
        ([SupEv.connectAttempt i, SupEv.sessionEnded i, SupEv.storedDestructor i,
          SupEv.loopBreak], some i, true)
      else
        let r := supLoop once rest (some i) (i + 1)
        ([SupEv.connectAttempt i, SupEv.sessionEnded i, SupEv.storedDestructor i,
          SupEv.loopDelay] ++ r.1, r.2)
    else
      let r := supLoop once rest d (i + 1)
      ([SupEv.connectAttempt i, SupEv.connectFailed i, SupEv.loopDelay] ++ r.1, r.2)

/--
Whole runMessageLoop execution (lines 320-366): the loop, then the
finally block, which runs only when the loop exits, invoking the stored
destructor if any and then destroyBluetooth. While the loop is still
running (cut observation) the finally block has not run.
-/
def runMessageLoopModel (sched : List Bool) (once : Bool) : List SupEv :=
  let r := supLoop once sched none 0
  r.1 ++
    if r.2.2 then
      (match r.2.1 with
        | some i => [SupEv.destroyedSession i]
        | none => []) ++ [SupEv.destroyedBluetooth]
    else []

/-- Exit flag of the loop for a given schedule. -/
def supExited (sched : List Bool) (once : Bool) : Bool :=
  (supLoop once sched none 0).2.2

/-- Test for a connect attempt among supervisor events. -/
def isConnectAttempt : SupEv → Bool
  | SupEv.connectAttempt _ => true
  | _ => false

/-- Test for a session destructor invocation among supervisor events. -/
def isDestroyedSession : SupEv → Bool
  | SupEv.destroyedSession _ => true
  | _ => false

/-- Test for the bluetooth teardown among supervisor events. -/
def isDestroyedBluetooth : SupEv → Bool
  | SupEv.destroyedBluetooth => true
  | _ => false

/-! Basic lemmas about the codec. -/

/-- Projection: the parsed packet id is byte 0. -/
theorem parse_packetId (buf : List Nat) : (parseIncomingPacket buf).packetId = buf.get? 0 := by
  simp only [parseIncomingPacket]
  split <;> rfl

/-- Projection: the parsed packet carries the whole buffer. -/
theorem parse_data (buf : List Nat) : (parseIncomingPacket buf).data = buf := by
  simp only [parseIncomingPacket]
  split <;> rfl

/-- Projection: the parser never assigns weightValue, so reading it gives undefined. -/
theorem parse_weightValue (buf : List Nat) : (parseIncomingPacket buf).weightValue = none := by
  simp only [parseIncomingPacket]
  split <;> rfl

/-! Claims about the codec. -/

/--
Claim C6, counterexample. The claim states that every buffer shorter
than 3 bytes decodes to an Unrecognized packet. The one-byte buffer
[0x10] is shorter than 3 bytes, yet the switch selects the WeightSample
branch on its first byte, so the decoded packet is a weight packet (with
undefined-valued fields), not an Unrecognized one.
-/
theorem c6_short_recognized_counterexample :
    ([0x10] : List Nat).length < 3
    ∧ variantOf [0x10] = PacketVariant.weightSampleV
    ∧ variantOf [0x10] ≠ PacketVariant.unrecognizedV := by
  decide

/--
Claim C6 (amended): decode is total and never raises; every decoded
packet carries the whole input buffer and the id read from byte 0; a
buffer whose first byte is absent or not one of the recognized ids
0x12, 0x14, 0x10 yields the Unrecognized branch. A short buffer whose
first byte IS a recognized id takes that branch instead, with its
missing bytes read as undefined.
-/
theorem c6_decode_total :
    ∀ buf : List Nat,
      (parseIncomingPacket buf).data = buf
      ∧ (parseIncomingPacket buf).packetId = buf.get? 0
      ∧ ((∀ v, buf.get? 0 = some v → v ≠ 0x12 ∧ v ≠ 0x14 ∧ v ≠ 0x10) →
          variantOf buf = PacketVariant.unrecognizedV) := by
  intro buf
  refine ⟨parse_data buf, parse_packetId buf, ?_⟩
  intro h
  unfold variantOf
  cases hb : buf.get? 0 with
  | none => simp
  | some v =>
    rcases h v hb with ⟨h1, h2, h3⟩
    simp [h1, h2, h3]

/-- Witness for c6_decode_total at the concrete buffer [9, 9, 9]. -/
theorem c6_decode_total_witness :
    variantOf [9, 9, 9] = PacketVariant.unrecognizedV := by
  refine (c6_decode_total [9, 9, 9]).2.2 ?_
  intro v hv
  simp at hv
  subst hv
  decide

/--
Claim C7: a weight frame of sufficient length decodes to
weightKg = bigEndianUint16(bytes[3..5]) / 100, and the settled
classification used by the dispatch code is the flag byte test
bytes[5] == 1; in particular the frame with weight bytes 0x04 0x4c and
flag 0 decodes to exactly 11 kg and is not settled.
-/
theorem c7_weight_decoding :
    (∀ (buf : List Nat) (b3 b4 : Nat),
        buf.get? 0 = some 0x10 → buf.get? 3 = some b3 → buf.get? 4 = some b4 →
        (parseIncomingPacket buf).weight = some ((((b3 * 256 + b4 : ℕ)) : ℚ) / 100)
        ∧ (settledOf (parseIncomingPacket buf) = true ↔ buf.get? 5 = some 1))
    ∧ (parseIncomingPacket liveFrame).weight = some (11 : ℚ)
    ∧ settledOf (parseIncomingPacket liveFrame) = false := by
  refine ⟨?_, ?_, ?_⟩
  · intro buf b3 b4 h0 h3 h4
    constructor
    · rw [List.get?_eq_getElem?] at h0 h3 h4
      simp [parseIncomingPacket, jsWeightOf, h0, h3, h4]
    · simp [settledOf, parse_data]
  · norm_num [parseIncomingPacket, jsWeightOf, liveFrame]
  · decide

/-- Witness for c7_weight_decoding at the concrete live frame. -/
theorem c7_weight_decoding_witness :
    (parseIncomingPacket liveFrame).weight = some ((((4 * 256 + 76 : ℕ)) : ℚ) / 100) := by
  exact (c7_weight_decoding.1 liveFrame 4 76 (by decide) (by decide) (by decide)).1

/-! Claims about the event registry. -/

/--
Lemma: when no handler in the array deregisters itself, the forEach
cursor visits every entry once, in order.
-/
theorem emitSteps_no_once (ls : List Handler) (hno : ∀ x ∈ ls, x.wrappedOnce = false) :
    ∀ (fuel k : Nat), ls.length ≤ k + fuel →
      emitSteps fuel ls k = (ls.drop k).map Handler.id := by
  intro fuel
  induction fuel with
  | zero =>
    intro k hk
    have hd : ls.drop k = [] := List.drop_eq_nil_of_le (by omega)
    simp [emitSteps, hd]
  | succ n ih =>
    intro k hk
    rw [emitSteps]
    by_cases h : k < ls.length
    · rw [dif_pos h]
      have hx : (ls.get ⟨k, h⟩).wrappedOnce = false := hno _ (List.get_mem ls k h)
      rw [if_neg (by simp only [List.get_eq_getElem] at hx; simp [hx])]
      rw [ih (k + 1) (by omega), List.drop_eq_getElem_cons h, List.map_cons]
      simp [List.get_eq_getElem]
    · rw [dif_neg h]
      have hd : ls.drop k = [] := List.drop_eq_nil_of_le (by omega)
      simp [hd]

/--
Claim C4, counterexample. With a once-wrapped handler (id 0) followed by
a plain handler (id 1), one emission invokes only handler 0: the wrapper
splices itself out of the live array during forEach, handler 1 shifts
into the visited slot and the cursor passes over it. So emit does not
invoke all handlers registered at the moment of the call.
-/
theorem c4_skip_counterexample :
    emitModel [⟨0, true⟩, ⟨1, false⟩] = [0]
    ∧ ([⟨0, true⟩, ⟨1, false⟩] : List Handler).map Handler.id = [0, 1]
    ∧ emitModel [⟨0, true⟩, ⟨1, false⟩]
        ≠ ([⟨0, true⟩, ⟨1, false⟩] : List Handler).map Handler.id := by
  decide

/--
Claim C4 (amended): emit walks the live listener array by index,
synchronously, passing the same arguments to each invoked handler. When
no handler deregisters itself during the emission, this invokes exactly
the handlers registered at the moment of the call, in registration
order. A once-wrapped handler that deregisters itself during the
emission shifts the array, so the handler immediately following it is
skipped for that emission: with handlers 0 (once), 1, 2 registered, the
invoked handlers are 0 and 2.
-/
theorem c4_emit_order :
    (∀ ls : List Handler, (∀ x ∈ ls, x.wrappedOnce = false) →
        emitModel ls = ls.map Handler.id)
    ∧ emitModel [⟨0, true⟩, ⟨1, false⟩, ⟨2, false⟩] = [0, 2] := by
  constructor
  · intro ls hno
    have h := emitSteps_no_once ls hno ls.length 0 (by omega)
    simpa [emitModel] using h
  · decide

/-- Witness for c4_emit_order on two plain handlers. -/
theorem c4_emit_order_witness :
    emitModel [⟨5, false⟩, ⟨6, false⟩] = [5, 6] := by
  have h := c4_emit_order.1 [⟨5, false⟩, ⟨6, false⟩] (by decide)
  simpa using h

/-! Lemmas about the session machine. -/

/-- Lemma: packet dispatch produces no watchdog effects. -/
theorem dispatch_no_watchdog (p : Packet) :
    (dispatchOuts p).countP isTimeoutEmit = 0
    ∧ (dispatchOuts p).countP isStopNotif = 0
    ∧ (dispatchOuts p).countP isOffCall = 0 := by
  unfold dispatchOuts
  split_ifs <;> simp [isTimeoutEmit, isStopNotif, isOffCall]

/-- Lemma: transition counting composes along a monotone Bool chain. -/
theorem tcount_trans (b1 b2 b3 : Bool) (h12 : b1 = true → b2 = true)
    (h23 : b2 = true → b3 = true) : tcount b1 b2 + tcount b2 b3 = tcount b1 b3 := by
  cases b1 <;> cases b2 <;> cases b3 <;> simp_all [tcount]

/--
Lemma: effects of one session step. The invariant is preserved, the
didTimeout flag is monotone, the step emits timeout, stopNotifications
and the listener removal exactly when the watchdog fires on this step,
and each of the three happens together.
-/
theorem step_watchdog (s : SessionState) (ev : SessionIn) (hs : SInv s) :
    SInv (sessionStep s ev).1
    ∧ (s.didTimeout = true → (sessionStep s ev).1.didTimeout = true)
    ∧ (sessionStep s ev).2.countP isTimeoutEmit
        = tcount s.didTimeout (sessionStep s ev).1.didTimeout
    ∧ (sessionStep s ev).2.countP isStopNotif
        = (sessionStep s ev).2.countP isTimeoutEmit
    ∧ (sessionStep s ev).2.countP isOffCall
        = (sessionStep s ev).2.countP isTimeoutEmit := by
  rcases hs with ⟨hsub, hth⟩
  cases ev with
  | notify buf =>
    by_cases hd : s.didTimeout = true
    · simp [sessionStep, hd, SInv, hsub, hth, tcount]
    · have hd2 : s.didTimeout = false := by
        cases h : s.didTimeout
        · rfl
        · exact absurd h hd
      refine ⟨⟨by simp [sessionStep, hd2, hsub], by simp [sessionStep, hd2]⟩, ?_, ?_, ?_, ?_⟩ <;>
        simp [sessionStep, hd2, tcount, isTimeoutEmit, isStopNotif, isOffCall,
          (dispatch_no_watchdog (parseIncomingPacket buf)).1,
          (dispatch_no_watchdog (parseIncomingPacket buf)).2.1,
          (dispatch_no_watchdog (parseIncomingPacket buf)).2.2]
  | timerFire i =>
    by_cases hf : s.timeoutHandle = some i
    · have hd2 : s.didTimeout = false := by
        cases h : s.didTimeout
        · rfl
        · rw [hth h] at hf; exact absurd hf (by simp)
      have hsub2 : s.subscribed = true := by rw [hsub, hd2]; rfl
      refine ⟨⟨by simp [sessionStep, hf], by simp [sessionStep, hf]⟩, ?_, ?_, ?_, ?_⟩ <;>
        simp [sessionStep, hf, hd2, hsub2, tcount, isTimeoutEmit, isStopNotif, isOffCall]
    · have hstep : sessionStep s (SessionIn.timerFire i) = (s, []) := by
        simp [sessionStep, hf]
      rw [hstep]
      refine ⟨⟨hsub, hth⟩, fun h => h, ?_, rfl, rfl⟩
      cases hd : s.didTimeout <;> simp [tcount, hd]

/--
Lemma: effects of a whole stimulus trace, by induction from any state
satisfying the invariant: the invariant holds at the end, didTimeout is
monotone, the trace emits timeout exactly once if the watchdog fired
during it and never otherwise, and stopNotifications and the listener
removal are emitted exactly as often as timeout.
-/
theorem run_watchdog (tr : List SessionIn) :
    ∀ s : SessionState, SInv s →
      SInv (runSession s tr).1
      ∧ (s.didTimeout = true → (runSession s tr).1.didTimeout = true)
      ∧ (runSession s tr).2.countP isTimeoutEmit
          = tcount s.didTimeout (runSession s tr).1.didTimeout
      ∧ (runSession s tr).2.countP isStopNotif
          = (runSession s tr).2.countP isTimeoutEmit
      ∧ (runSession s tr).2.countP isOffCall
          = (runSession s tr).2.countP isTimeoutEmit := by
  induction tr with
  | nil =>
    intro s hs
    refine ⟨hs, fun h => h, ?_, rfl, rfl⟩
    simp [runSession, tcount]
  | cons ev rest ih =>
    intro s hs
    obtain ⟨hs1, hmono1, ht1, hsn1, hoff1⟩ := step_watchdog s ev hs
    obtain ⟨hs2, hmono2, ht2, hsn2, hoff2⟩ := ih (sessionStep s ev).1 hs1
    have hrun : runSession s (ev :: rest)
        = ((runSession (sessionStep s ev).1 rest).1,
           (sessionStep s ev).2 ++ (runSession (sessionStep s ev).1 rest).2) := rfl
    rw [hrun]
    refine ⟨hs2, fun h => hmono2 (hmono1 h), ?_, ?_, ?_⟩
    · simp only [List.countP_append, ht1, ht2]
      exact tcount_trans _ _ _ hmono1 hmono2
    · simp only [List.countP_append, hsn1, hsn2, ht1, ht2]
    · simp only [List.countP_append, hoff1, hoff2, ht1, ht2]

/-- Lemma: the initial session state satisfies the invariant. -/
theorem initSession_inv : SInv initSession := by
  constructor <;> simp [initSession]

/-! Claims about the session machine. -/

/--
Claim C9: over any stimulus trace of a session, at most one timeout
event is emitted; stopNotifications and the removal of the valuechanged
listener happen exactly as often as the timeout emission, hence also at
most once, and exactly once on every trace on which the watchdog fired;
and every notification processed by a live session rearms the idle timer
with a fresh handle.
-/
theorem c9_idle_watchdog :
    (∀ tr : List SessionIn,
        (runSession initSession tr).2.countP isTimeoutEmit ≤ 1
        ∧ (runSession initSession tr).2.countP isStopNotif
            = (runSession initSession tr).2.countP isTimeoutEmit
        ∧ (runSession initSession tr).2.countP isOffCall
            = (runSession initSession tr).2.countP isTimeoutEmit
        ∧ ((runSession initSession tr).1.didTimeout = true →
            (runSession initSession tr).2.countP isTimeoutEmit = 1))
    ∧ (∀ (s : SessionState) (buf : List Nat), s.didTimeout = false →
        (sessionStep s (SessionIn.notify buf)).1.timeoutHandle = some s.nextTimerId
        ∧ (sessionStep s (SessionIn.notify buf)).1.nextTimerId = s.nextTimerId + 1) := by
  constructor
  · intro tr
    obtain ⟨-, -, ht, hsn, hoff⟩ := run_watchdog tr initSession initSession_inv
    have hd0 : initSession.didTimeout = false := rfl
    rw [hd0] at ht
    refine ⟨?_, hsn, hoff, ?_⟩
    · rw [ht]
      cases (runSession initSession tr).1.didTimeout <;> simp [tcount]
    · intro h
      rw [ht, h]
      simp [tcount]
  · intro s buf h
    constructor <;> simp [sessionStep, h]

/-- Witness for c9_idle_watchdog: a trace on which the armed timer fires. -/
theorem c9_idle_watchdog_witness :
    (runSession initSession [SessionIn.timerFire 0]).2.countP isTimeoutEmit = 1
    ∧ (sessionStep initSession (SessionIn.notify [0x12])).1.timeoutHandle = some 1 := by
  constructor
  · exact (c9_idle_watchdog.1 [SessionIn.timerFire 0]).2.2.2 (by decide)
  · have h := (c9_idle_watchdog.2 initSession [0x12] (by decide)).1
    simpa [initSession] using h

/--
Claim C10: once the idle timeout has fired, every later notification is
dropped entirely by the didTimeout guard of handleValueChange: no state
change, no emission, no outgoing write, whatever the buffer holds.
-/
theorem c10_dropped_after_timeout :
    ∀ (s : SessionState) (buf : List Nat), s.didTimeout = true →
      sessionStep s (SessionIn.notify buf) = (s, []) := by
  intro s buf h
  simp [sessionStep, h]

/-- Witness for c10_dropped_after_timeout on a timed-out state and a settled frame. -/
theorem c10_dropped_after_timeout_witness :
    sessionStep ⟨true, none, false, 5⟩ (SessionIn.notify settledFrame)
      = (⟨true, none, false, 5⟩, []) :=
  c10_dropped_after_timeout ⟨true, none, false, 5⟩ settledFrame rfl

/--
Claim C1, code bug. On a settled weight frame the session performs
exactly one write, the stop-streaming frame, and exactly one measurement
emission with no liveupdate, but the emitted payload is undefined (none):
handlePacket reads p.weightValue, a property the parser never assigns
(protocol.ts assigns the field named weight, and the Packet type in
protocol.ts declares no weightValue at all), so the payload differs from
the decoded weight of 11 kg that the claim, the EventTree declaration
and the class documentation promise.
-/
theorem c1_measurement_payload_bug :
    sessionStep initSession (SessionIn.notify settledFrame)
        = ({ didTimeout := false, timeoutHandle := some 1, subscribed := true,
             nextTimerId := 2 },
           [SessionOut.emitData (parseIncomingPacket settledFrame),
            SessionOut.writeFrame stopStreamingFrame,
            SessionOut.emitMeasurement none])
    ∧ (parseIncomingPacket settledFrame).weight = some (11 : ℚ)
    ∧ SessionOut.emitMeasurement none ≠ SessionOut.emitMeasurement (some (11 : ℚ)) := by
  refine ⟨?_, ?_, ?_⟩
  · simp [sessionStep, initSession, dispatchOuts, parse_packetId, parse_data,
      parse_weightValue, settledFrame]
  · norm_num [parseIncomingPacket, jsWeightOf, settledFrame]
  · simp

/--
Claim C8: a handshake-init frame then a handshake-ack frame cause, in
order, exactly the two fixed handshake writes and nothing else on the
write channel, and the notification history lands the session in the
Streaming phase of the spec state machine (the code itself keeps no
handshake-progress state, so the phase is the spec abstraction over the
processed ids, with the session still live).
-/
theorem c8_handshake_exchange :
    ∀ b1 b2 : List Nat,
      b1.get? 0 = some 0x12 → b2.get? 0 = some 0x14 →
      writesOf (runSession initSession [SessionIn.notify b1, SessionIn.notify b2]).2
          = [handshakeResp1, handshakeResp2]
      ∧ specSessionPhase SpecPhase.awaitingHandshake [b1, b2] = SpecPhase.streaming
      ∧ (runSession initSession [SessionIn.notify b1, SessionIn.notify b2]).1.didTimeout
          = false := by
  intro b1 b2 h1 h2
  rw [List.get?_eq_getElem?] at h1 h2
  refine ⟨?_, ?_, ?_⟩
  · simp [runSession, sessionStep, initSession, dispatchOuts, parse_packetId,
      h1, h2, writesOf]
  · simp [specSessionPhase, specPhaseStep, parse_packetId, h1, h2]
  · simp [runSession, sessionStep, initSession]

/-- Witness for c8_handshake_exchange at two concrete handshake frames. -/
theorem c8_handshake_exchange_witness :
    writesOf (runSession initSession
        [SessionIn.notify [0x12, 0x07, 0x15], SessionIn.notify [0x14, 0x08, 0x15]]).2
      = [handshakeResp1, handshakeResp2] :=
  (c8_handshake_exchange [0x12, 0x07, 0x15] [0x14, 0x08, 0x15] rfl rfl).1

/-! Claims about destroy. -/

/--
Claim C5, counterexample. destroy never touches the listener registry:
after a destroy on a state holding one registered listener, that
listener is still registered, so destroy does not clear all event
registrations as the claim states.
-/
theorem c5_registrations_counterexample :
    (destroyModel false ⟨some 3, true, [7]⟩).1.listeners = [7]
    ∧ ([7] : List Nat) ≠ [] := by
  decide

/--
Claim C5 (amended): destroy never raises, whether or not the transport
unsubscribe fails (the catch swallows every cleanup failure); it always
clears a live timer handle; after a destroy whose unsubscribe succeeded,
a second destroy performs no cleanup action at all, raises no error and
leaves the state fixed, so there is no duplicate unsubscribe and no
timeout emission (destroy emits no events). However destroy leaves the
event registrations untouched: the listener registry is not cleared.
-/
theorem c5_destroy_idempotent :
    ∀ (s : ScaleRes) (f g : Bool),
      (destroyModel f s).2.2 = false
      ∧ (destroyModel f s).1.timeoutHandle = none
      ∧ (destroyModel f s).1.listeners = s.listeners
      ∧ destroyModel g (destroyModel false s).1 = ((destroyModel false s).1, [], false) := by
  intro s f g
  rcases s with ⟨th, ec, ls⟩
  cases th <;> cases ec <;> cases f <;> cases g <;>
    simp [destroyModel, stopListeningModel]

/-! Lemmas about the supervisor loop. -/

/-- Lemma: no destructor runs anywhere inside the loop body. -/
theorem supLoop_no_destroy :
    ∀ (once : Bool) (sched : List Bool) (d : Option Nat) (i : Nat),
      (supLoop once sched d i).1.countP isDestroyedSession = 0
      ∧ (supLoop once sched d i).1.countP isDestroyedBluetooth = 0 := by
  intro once sched
  induction sched with
  | nil => intro d i; simp [supLoop]
  | cons ok rest ih =>
    intro d i
    cases ok <;> cases once <;>
      simp [supLoop, isDestroyedSession, isDestroyedBluetooth, ih]

/--
Lemma: when the loop exits, the trace ends with a stored destructor
followed by the break, the stored destructor being the exit value.
-/
theorem supLoop_exit_shape :
    ∀ (once : Bool) (sched : List Bool) (d : Option Nat) (i : Nat),
      (supLoop once sched d i).2.2 = true →
      ∃ pre j, (supLoop once sched d i).1
          = pre ++ [SupEv.storedDestructor j, SupEv.loopBreak]
        ∧ (supLoop once sched d i).2.1 = some j := by
  intro once sched
  induction sched with
  | nil => intro d i h; simp [supLoop] at h
  | cons ok rest ih =>
    intro d i h
    cases ok with
    | false =>
      have h2 : (supLoop once rest d (i + 1)).2.2 = true := by
        simpa [supLoop] using h
      rcases ih d (i + 1) h2 with ⟨pre, j, hp, hd⟩
      refine ⟨[SupEv.connectAttempt i, SupEv.connectFailed i, SupEv.loopDelay] ++ pre, j, ?_, ?_⟩
      · simp [supLoop, hp]
      · simpa [supLoop] using hd
    | true =>
      cases once with
      | true =>
        exact ⟨[SupEv.connectAttempt i, SupEv.sessionEnded i], i, by simp [supLoop], by simp [supLoop]⟩
      | false =>
        have h2 : (supLoop false rest (some i) (i + 1)).2.2 = true := by
          simpa [supLoop] using h
        rcases ih (some i) (i + 1) h2 with ⟨pre, j, hp, hd⟩
        refine ⟨[SupEv.connectAttempt i, SupEv.sessionEnded i, SupEv.storedDestructor i,
          SupEv.loopDelay] ++ pre, j, ?_, ?_⟩
        · simp [supLoop, hp]
        · simpa [supLoop] using hd

/-- Lemma: the loop exits only when once is set and some attempt completed. -/
theorem supLoop_exit_requires :
    ∀ (once : Bool) (sched : List Bool) (d : Option Nat) (i : Nat),
      (supLoop once sched d i).2.2 = true → once = true ∧ true ∈ sched := by
  intro once sched
  induction sched with
  | nil => intro d i h; simp [supLoop] at h
  | cons ok rest ih =>
    intro d i h
    cases ok with
    | false =>
      have h2 : (supLoop once rest d (i + 1)).2.2 = true := by
        simpa [supLoop] using h
      rcases ih d (i + 1) h2 with ⟨h3, h4⟩
      exact ⟨h3, List.mem_cons_of_mem _ h4⟩
    | true =>
      cases once with
      | true => exact ⟨rfl, List.mem_cons_self _ _⟩
      | false =>
        have h2 : (supLoop false rest (some i) (i + 1)).2.2 = true := by
          simpa [supLoop] using h
        rcases ih (some i) (i + 1) h2 with ⟨h3, h4⟩
        exact absurd h3 (by simp)

/-- Lemma: a schedule of N failures then one completion, without once. -/
theorem supLoop_fail_then_ok :
    ∀ (N : Nat) (d : Option Nat) (i : Nat),
      (supLoop false (List.replicate N false ++ [true]) d i).1.countP isConnectAttempt = N + 1
      ∧ (supLoop false (List.replicate N false ++ [true]) d i).2.2 = false := by
  intro N
  induction N with
  | zero =>
    intro d i
    simp [supLoop, isConnectAttempt]
  | succ n ih =>
    intro d i
    rcases ih d (i + 1) with ⟨h1, h2⟩
    constructor
    · simp [List.replicate_succ, supLoop, isConnectAttempt, h1]
    · simpa [List.replicate_succ, supLoop] using h2

/-! Claims about the supervisor. -/

/--
Claim C2, counterexample. With a schedule of two completed sessions and
the run-once flag unset, the supervisor trace is: connect, session-ended
signal, store destructor, delay, connect, session-ended signal, store
destructor, delay — with zero destroy calls. So after the session-ended
signal the supervisor does NOT call destroy before delaying and
retrying; it only stores the destructor closure.
-/
theorem c2_no_destroy_counterexample :
    runMessageLoopModel [true, true] false
        = [SupEv.connectAttempt 0, SupEv.sessionEnded 0, SupEv.storedDestructor 0,
           SupEv.loopDelay, SupEv.connectAttempt 1, SupEv.sessionEnded 1,
           SupEv.storedDestructor 1, SupEv.loopDelay]
    ∧ (runMessageLoopModel [true, true] false).countP isDestroyedSession = 0 := by
  decide

/--
Claim C2 (amended): inside the loop body no session destroy and no
transport release ever happens; after the session-ended signal the
supervisor stores the destructor closure without invoking it. Releases
happen solely in the finally block on loop exit: whenever the loop
exits, the transport resource is released exactly once and exactly one
session — the most recent one, whose stored destructor is the one the
break left in place — is destroyed, the whole trace ending with the
stored destructor, the break, the session destroy and the transport
release. Sessions from earlier iterations are never destroyed by the
supervisor.
-/
theorem c2_release_on_exit :
    ∀ (sched : List Bool) (once : Bool),
      (supLoop once sched none 0).1.countP isDestroyedSession = 0
      ∧ (supLoop once sched none 0).1.countP isDestroyedBluetooth = 0
      ∧ (runMessageLoopModel sched once).countP isDestroyedSession ≤ 1
      ∧ (runMessageLoopModel sched once).countP isDestroyedBluetooth ≤ 1
      ∧ (supExited sched once = true →
          (runMessageLoopModel sched once).countP isDestroyedSession = 1
          ∧ (runMessageLoopModel sched once).countP isDestroyedBluetooth = 1
          ∧ ∃ pre j, runMessageLoopModel sched once
              = pre ++ [SupEv.storedDestructor j, SupEv.loopBreak,
                        SupEv.destroyedSession j, SupEv.destroyedBluetooth]) := by
  intro sched once
  obtain ⟨hns, hnb⟩ := supLoop_no_destroy once sched none 0
  by_cases he : (supLoop once sched none 0).2.2 = true
  · rcases supLoop_exit_shape once sched none 0 he with ⟨pre, j, hp, hd⟩
    have hmodel : runMessageLoopModel sched once
        = (supLoop once sched none 0).1
            ++ [SupEv.destroyedSession j, SupEv.destroyedBluetooth] := by
      simp [runMessageLoopModel, he, hd]
    refine ⟨hns, hnb, ?_, ?_, fun _ => ⟨?_, ?_, pre, j, ?_⟩⟩
    · simp [hmodel, List.countP_append, hns, isDestroyedSession, isDestroyedBluetooth]
    · simp [hmodel, List.countP_append, hnb, isDestroyedSession, isDestroyedBluetooth]
    · simp [hmodel, List.countP_append, hns, isDestroyedSession, isDestroyedBluetooth]
    · simp [hmodel, List.countP_append, hnb, isDestroyedSession, isDestroyedBluetooth]
    · rw [hmodel, hp, List.append_assoc]
      rfl
  · have he2 : (supLoop once sched none 0).2.2 = false := by
      cases h : (supLoop once sched none 0).2.2
      · rfl
      · exact absurd h he
    have hmodel : runMessageLoopModel sched once = (supLoop once sched none 0).1 := by
      simp [runMessageLoopModel, he2]
    refine ⟨hns, hnb, ?_, ?_, fun h => absurd h he⟩
    · simp [hmodel, hns]
    · simp [hmodel, hnb]

/-- Witness for c2_release_on_exit on a one-iteration schedule with once set. -/
theorem c2_release_on_exit_witness :
    (runMessageLoopModel [true] true).countP isDestroyedSession = 1
    ∧ (runMessageLoopModel [true] true).countP isDestroyedBluetooth = 1 := by
  have h := (c2_release_on_exit [true] true).2.2.2.2 (by decide)
  exact ⟨h.1, h.2.1⟩

/--
Claim C3, counterexample. With the run-once flag set and a first attempt
that fails, the loop does not terminate: after the caught failure it is
still running (exit flag false on the one-entry schedule), and on the
two-entry schedule it performs a second connect attempt. This refutes
the part of the claim asserting that the supervisor also terminates when
run-once is set and the first attempt fails; the break is only reachable
after a completed attempt.
-/
theorem c3_once_failure_counterexample :
    supExited [false] true = false
    ∧ (runMessageLoopModel [false, true] true).countP isConnectAttempt = 2 := by
  decide

/--
Claim C3 (amended): every failed attempt is caught at loop level, logged
and followed by the fixed delay and the next iteration, never by loop
exit at that iteration; the loop terminates only when run-once is set
and an attempt completes — in particular a failing first attempt with
run-once set does not terminate it; and on a schedule of N failures
followed by a success, with run-once unset, the supervisor makes exactly
N + 1 connect attempts and never exits the loop.
-/
theorem c3_retry_on_error :
    (∀ (once : Bool) (rest : List Bool) (d : Option Nat) (i : Nat),
        supLoop once (false :: rest) d i
          = ([SupEv.connectAttempt i, SupEv.connectFailed i, SupEv.loopDelay]
              ++ (supLoop once rest d (i + 1)).1,
             (supLoop once rest d (i + 1)).2))
    ∧ (∀ (sched : List Bool) (once : Bool),
        supExited sched once = true → once = true ∧ true ∈ sched)
    ∧ (∀ N : Nat,
        (runMessageLoopModel (List.replicate N false ++ [true]) false).countP
            isConnectAttempt = N + 1
        ∧ supExited (List.replicate N false ++ [true]) false = false) := by
  refine ⟨?_, ?_, ?_⟩
  · intro once rest d i
    rfl
  · intro sched once h
    exact supLoop_exit_requires once sched none 0 h
  · intro N
    obtain ⟨h1, h2⟩ := supLoop_fail_then_ok N none 0
    refine ⟨?_, h2⟩
    have hmodel : runMessageLoopModel (List.replicate N false ++ [true]) false
        = (supLoop false (List.replicate N false ++ [true]) none 0).1 := by
      simp [runMessageLoopModel, h2]
    rw [hmodel]
    exact h1

/-- Witness for c3_retry_on_error: the exit on a completed once-run. -/
theorem c3_retry_on_error_witness :
    true = true ∧ true ∈ ([true] : List Bool) :=
  c3_retry_on_error.2.1 [true] true (by decide)
